import Mathlib

/-!
Verification of the CovViz COVID-19 data pipeline.

Shallow embedding of the repository's data-transformation code:
`src/data_loader.py` (reshape wide→long, merge, daily deltas, aggregation),
`src/utils.py` (growth rate, rolling average, top-N countries) and the
case-fatality-rate computation of `src/visualizations.py` /
`src/pages/5_Comparative_Analysis.py`.

Modelling conventions:
* numeric cell values are rationals (`ℚ`); floating-point rounding is not
  modelled, but the *non-finite* results of IEEE division by zero
  (`NaN`/`±inf`) are modelled as `none`;
* missing values (pandas `NaN` produced by unmatched left-joins or absent
  cells) are `Option` values, and the pipeline's `fillna` turns them into
  their defaults exactly where the source does;
* dates are abstracted to naturals (only equality and order matter);
* `pandas` raising an exception is modelled with `Except`.
-/

namespace CovViz

/-! ## `src/utils.py` -/

/-- Errors that the modelled `utils` functions can raise. -/
inductive UtilError where
  | indexError
deriving DecidableEq

/-- Python/pandas negative positional indexing: `iloc[-k]` for `k ≥ 1` is the
`k`-th element from the end and raises `IndexError` (here: `none`) when the
series is shorter than `k` (or when `k = 0` would not denote a
negative position). -/
def ilocNeg (l : List ℚ) (k : ℕ) : Option ℚ :=
  if 1 ≤ k ∧ k ≤ l.length then l.get? (l.length - k) else none

/-- `src/utils.py::calculate_growth_rate(data, column, days)`.
The `column` argument merely selects the series, so the model takes the
series directly.  Mirrors the source line by line: if `len(data) < days`
return `None` (modelled `Except.ok none`); read `iloc[-1]` and
`iloc[-days-1]` (an out-of-range read raises `IndexError`); if the previous
value is `0` return `None`; otherwise return the percentage growth. -/
def calculate_growth_rate (data : List ℚ) (days : ℕ) : Except UtilError (Option ℚ) :=
  if data.length < days then Except.ok none
  else
    match ilocNeg data 1, ilocNeg data (days + 1) with
    | some current, some previous =>
        if previous = 0 then Except.ok none
        else Except.ok (some ((current - previous) / previous * 100))
    | _, _ => Except.error UtilError.indexError

/-- `src/utils.py::calculate_rolling_average(data, column, window)`:
`data[column].rolling(window=window).mean()`.  pandas' default
`min_periods` equals `window`, so positions with fewer than `window`
available points yield `NaN` (modelled `none`); a full window yields the
mean of the last `window` values. -/
def calculate_rolling_average (xs : List ℚ) (window : ℕ) : List (Option ℚ) :=
  (List.range xs.length).map fun i =>
    if i + 1 < window then none
    else some (((xs.take (i + 1)).drop (i + 1 - window)).sum / (window : ℚ))

/-- Round half to even at two decimal places, the rounding used by
`numpy`/`pandas` `.round(2)`. -/
def round2 (x : ℚ) : ℚ :=
  let y := x * 100
  let f : ℤ := ⌊y⌋
  if y - (f : ℚ) < 1 / 2 then (f : ℚ) / 100
  else if (1 : ℚ) / 2 < y - (f : ℚ) then ((f : ℚ) + 1) / 100
  else (if f % 2 = 0 then (f : ℚ) else (f : ℚ) + 1) / 100

/-- The case-fatality-rate computation
`(total_deaths / total_cases * 100).round(2)` of
`src/pages/5_Comparative_Analysis.py` line 201 and
`src/visualizations.py::create_bubble_chart` line 365.  The source has no
guard: with `total_cases = 0` the IEEE float division yields a non-finite
value (`NaN` for `0/0`, `±inf` otherwise), modelled as `none`. -/
def case_fatality_rate (totalDeaths totalCases : ℚ) : Option ℚ :=
  if totalCases = 0 then none
  else some (round2 (totalDeaths / totalCases * 100))

/-- A row of a table handed to `get_top_countries`: a `country`, a `date`
and the value of the selected metric column. -/
structure CountryRow where
  country : String
  date : ℕ
  value : ℚ
deriving DecidableEq

/-- `data['date'].max()` (dates are naturals; the empty table, where pandas
would give `NaN`, is modelled as `0` — no claim touches it). -/
def latestDate (rows : List CountryRow) : ℕ :=
  (rows.map (·.date)).foldr max 0

/-- The metric total `groupby('country')[column].sum()` assigns to country
`c` among the rows at date `d`. -/
def metricSum (rows : List CountryRow) (d : ℕ) (c : String) : ℚ :=
  ((rows.filter fun r => r.date = d ∧ r.country = c).map (·.value)).sum

/-- The distinct countries among the rows at date `d`. -/
def countriesAt (rows : List CountryRow) (d : ℕ) : List String :=
  ((rows.filter fun r => r.date = d).map (·.country)).dedup

/-- The order in which `Series.nlargest(n)` (with its default
`keep='first'`) ranks the country sums produced by `groupby('country')`:
larger value first; on equal values the smaller country name first,
because `groupby` sorts its keys ascending and `nlargest` is
first-occurrence-preferring on that sorted series.  On pairs with distinct
names this order is total and antisymmetric, so the sorted permutation it
determines is unique. -/
def rankRel (a b : String × ℚ) : Prop :=
  b.2 < a.2 ∨ (a.2 = b.2 ∧ a.1 ≤ b.1)

instance : DecidableRel rankRel := fun a b => by
  unfold rankRel; infer_instance

instance : IsTotal (String × ℚ) rankRel where
  total a b := by
    rcases lt_trichotomy a.2 b.2 with h | h | h
    · exact Or.inr (Or.inl h)
    · rcases le_total a.1 b.1 with h1 | h1
      · exact Or.inl (Or.inr ⟨h, h1⟩)
      · exact Or.inr (Or.inr ⟨h.symm, h1⟩)
    · exact Or.inl (Or.inl h)

instance : IsTrans (String × ℚ) rankRel where
  trans a b c hab hbc := by
    rcases hab with h1 | ⟨e1, l1⟩
    · rcases hbc with h2 | ⟨e2, _⟩
      · exact Or.inl (h2.trans h1)
      · exact Or.inl (e2 ▸ h1)
    · rcases hbc with h2 | ⟨e2, l2⟩
      · exact Or.inl (e1 ▸ h2)
      · exact Or.inr ⟨e1.trans e2, l1.trans l2⟩

/-- The date `get_top_countries` actually ranks at: the `date` argument
when given, otherwise the latest date present. -/
def resolvedDate (rows : List CountryRow) (date : Option ℕ) : ℕ :=
  date.getD (latestDate rows)

/-- `src/utils.py::get_top_countries(data, column, n, date)`: filter the
rows to `date` (defaulting to the latest date present), group by country
(`groupby` sorts the group keys ascending), sum the metric, and take the
index of `nlargest(n)`. -/
def get_top_countries (rows : List CountryRow) (n : ℕ) (date : Option ℕ) : List String :=
  let d := resolvedDate rows date
  let sums := (List.insertionSort (fun a b : String => a ≤ b) (countriesAt rows d)).map
    fun c => (c, metricSum rows d c)
  ((List.insertionSort rankRel sums).take n).map Prod.fst

/-! ## `src/data_loader.py` -/

/-- A long-format record as produced by `process_time_series`: identity
columns (`province` may be missing, i.e. `NaN`), a `date` and the cell
`value` of one category (which may itself be a missing cell). -/
structure LongRecord where
  province : Option String
  country : String
  latitude : ℚ
  longitude : ℚ
  date : ℕ
  value : Option ℚ
deriving DecidableEq

/-- One row of a wide-format source table: the four identity columns plus
one cell per date column (aligned with the table's `headers`). -/
structure WideRow where
  province : Option String
  country : String
  latitude : ℚ
  longitude : ℚ
  cells : List (Option ℚ)
deriving DecidableEq

/-- A wide-format source table.  `hasIdColumns` records whether the four
identity columns `Province/State`, `Country/Region`, `Lat`, `Long` are
present (when they are not, `df.melt(id_vars=...)` raises a `KeyError`). -/
structure WideTable where
  hasIdColumns : Bool
  headers : List String
  rows : List WideRow
deriving DecidableEq

/-- Errors raised by the modelled `process_time_series`. -/
inductive ReshapeError where
  | missingIdColumns
  | unparsableDate
deriving DecidableEq

/-- `pd.to_datetime` applied to the whole melted `date` column with its
default `errors='raise'`: every header must parse, a single failure aborts
the column conversion. -/
def parseAll (parse : String → Option ℕ) : List String → Option (List ℕ)
  | [] => some []
  | h :: hs =>
    match parse h, parseAll parse hs with
    | some d, some ds => some (d :: ds)
    | _, _ => none

/-- The block of melted records contributed by the `k`-th value column,
whose header parsed to date `d`: one record per input row. -/
def meltColumn (rows : List WideRow) (k : ℕ) (d : ℕ) : List LongRecord :=
  rows.map fun r => ⟨r.province, r.country, r.latitude, r.longitude, d, r.cells.getD k none⟩

/-- `df.melt` stacks the value columns one after the other: for each
(column index, parsed date) pair, all rows of that column. -/
def meltAll (rows : List WideRow) : List (ℕ × ℕ) → List LongRecord
  | [] => []
  | (k, d) :: rest => meltColumn rows k d ++ meltAll rows rest

/-- `src/data_loader.py::process_time_series(df, category)`: melt the wide
table over the four identity columns, then convert the `date` column with
`pd.to_datetime`.  The date format itself is abstracted as a parameter
`parse` (a partial header parser); what the source fixes is the control
flow: missing identity columns raise, and one unparsable header makes the
whole conversion raise. -/
def process_time_series (parse : String → Option ℕ) (t : WideTable) :
    Except ReshapeError (List LongRecord) :=
  if t.hasIdColumns = false then Except.error ReshapeError.missingIdColumns
  else
    match parseAll parse t.headers with
    | none => Except.error ReshapeError.unparsableDate
    | some dates => Except.ok (meltAll t.rows dates.enum)

/-- The merged row after the left-joins of `load_covid_data`, before
`fillna`: the three cumulative columns may be missing (`NaN`), either
because a join found no match or because the source cell was missing. -/
structure JoinedRecord where
  province : Option String
  country : String
  latitude : ℚ
  longitude : ℚ
  date : ℕ
  total_cases : Option ℚ
  total_deaths : Option ℚ
  total_recovered : Option ℚ
deriving DecidableEq

/-- The block of output rows one left-hand row contributes to a left
join, given the right-hand rows matching its key: the no-match default
row when there is none, otherwise one output row per match. -/
def joinMatches {α : Type} (noMatch : α) (withMatch : LongRecord → α)
    (ms : List LongRecord) : List α :=
  match ms with
  | [] => [noMatch]
  | _ => ms.map withMatch

/-- `pd.merge(confirmed_long, deaths_long[...], on=['province','country','date'],
how='left')`: every confirmed row is kept; each matching deaths row
multiplies it, and with no match `total_deaths` is `NaN`. -/
def merge_deaths (confirmed deaths : List LongRecord) : List JoinedRecord :=
  confirmed.flatMap fun c =>
    joinMatches
      ⟨c.province, c.country, c.latitude, c.longitude, c.date, c.value, none, none⟩
      (fun d => ⟨c.province, c.country, c.latitude, c.longitude, c.date, c.value, d.value, none⟩)
      (deaths.filter fun d => d.province = c.province ∧ d.country = c.country ∧ d.date = c.date)

/-- The recovered step of `load_covid_data`: when recovered data processed
successfully, left-join it the same way; when it is unavailable, the
source sets the whole `total_recovered` column to `0` (not `NaN`). -/
def merge_recovered (joined : List JoinedRecord) (recovered : Option (List LongRecord)) :
    List JoinedRecord :=
  match recovered with
  | none => joined.map fun j => { j with total_recovered := some 0 }
  | some recs =>
    joined.flatMap fun j =>
      joinMatches { j with total_recovered := none }
        (fun rr => { j with total_recovered := rr.value })
        (recs.filter fun rr => rr.province = j.province ∧ rr.country = j.country ∧ rr.date = j.date)

/-- A merged row after `fillna({'province': '', 'total_cases': 0,
'total_deaths': 0, 'total_recovered': 0})`: no missing values remain. -/
structure PreMerged where
  province : String
  country : String
  latitude : ℚ
  longitude : ℚ
  date : ℕ
  total_cases : ℚ
  total_deaths : ℚ
  total_recovered : ℚ
deriving DecidableEq

/-- The `fillna` step of `load_covid_data`. -/
def fillna (l : List JoinedRecord) : List PreMerged :=
  l.map fun j =>
    ⟨j.province.getD "", j.country, j.latitude, j.longitude, j.date,
     j.total_cases.getD 0, j.total_deaths.getD 0, j.total_recovered.getD 0⟩

/-- The sort key order of
`merged_data.sort_values(['country', 'province', 'date'])`. -/
def rowLe (a b : PreMerged) : Prop :=
  a.country < b.country ∨
    (a.country = b.country ∧
      (a.province < b.province ∨ (a.province = b.province ∧ a.date ≤ b.date)))

instance : DecidableRel rowLe := fun a b => by
  unfold rowLe; infer_instance

/-- `merged_data.sort_values(['country', 'province', 'date'])`. -/
def sortRows (l : List PreMerged) : List PreMerged :=
  List.insertionSort rowLe l

/-- A delta series is keyed by `groupby(['country', 'province'])`. -/
abbrev SeriesKey := String × String

/-- The series key of a pre-merged row. -/
def pkey (p : PreMerged) : SeriesKey := (p.country, p.province)

/-- The canonical per-subregion-per-day output row of the pipeline. -/
structure MergedRecord where
  province : String
  country : String
  latitude : ℚ
  longitude : ℚ
  date : ℕ
  total_cases : ℚ
  total_deaths : ℚ
  total_recovered : ℚ
  new_cases : ℚ
  new_deaths : ℚ
deriving DecidableEq

/-- The series key of a merged output row. -/
def skey (m : MergedRecord) : SeriesKey := (m.country, m.province)

/-- Last-seen `(total_cases, total_deaths)` per series key (most recent
binding first). -/
def lookupKV : List (SeriesKey × ℚ × ℚ) → SeriesKey → Option (ℚ × ℚ)
  | [], _ => none
  | (k', v) :: rest, k => if k = k' then some v else lookupKV rest k

/-- One output row: `groupby(...)['total_cases'].diff()` gives
`NaN` (no previous row in the series) or the difference with the previous
row; `.fillna(0)` replaces the `NaN` by `0`; `.clip(lower=0)` takes the
maximum with `0`.  Likewise for deaths. -/
def mkMerged (p : PreMerged) (seen : List (SeriesKey × ℚ × ℚ)) : MergedRecord :=
  let prev := lookupKV seen (pkey p)
  { province := p.province, country := p.country,
    latitude := p.latitude, longitude := p.longitude, date := p.date,
    total_cases := p.total_cases, total_deaths := p.total_deaths,
    total_recovered := p.total_recovered,
    new_cases := max 0 ((prev.map fun q => p.total_cases - q.1).getD 0),
    new_deaths := max 0 ((prev.map fun q => p.total_deaths - q.2).getD 0) }

/-- The diff/fillna/clip stage of `load_covid_data`, walking the sorted
rows while remembering, per series key, the previous row's cumulative
values (exactly what `groupby(...).diff()` subtracts). -/
def computeDeltas : List PreMerged → List (SeriesKey × ℚ × ℚ) → List MergedRecord
  | [], _ => []
  | p :: ps, seen =>
    mkMerged p seen :: computeDeltas ps ((pkey p, p.total_cases, p.total_deaths) :: seen)

/-- A per-country per-date aggregate row. -/
structure CountryAggregate where
  country : String
  date : ℕ
  total_cases : ℚ
  total_deaths : ℚ
  total_recovered : ℚ
  new_cases : ℚ
  new_deaths : ℚ
deriving DecidableEq

/-- A global per-date aggregate row. -/
structure GlobalAggregate where
  date : ℕ
  total_cases : ℚ
  total_deaths : ℚ
  total_recovered : ℚ
  new_cases : ℚ
  new_deaths : ℚ
deriving DecidableEq

/-- Sum of a field over a list of merged rows. -/
def sumOf (l : List MergedRecord) (f : MergedRecord → ℚ) : ℚ :=
  (l.map f).sum

/-- Ascending order on `groupby(['country', 'date'])` keys. -/
def keyLeCD (a b : String × ℕ) : Prop :=
  a.1 < b.1 ∨ (a.1 = b.1 ∧ a.2 ≤ b.2)

instance : DecidableRel keyLeCD := fun a b => by
  unfold keyLeCD; infer_instance

/-- The merged rows belonging to a `(country, date)` group. -/
def countryGroup (l : List MergedRecord) (k : String × ℕ) : List MergedRecord :=
  l.filter fun m => m.country = k.1 ∧ m.date = k.2

/-- `merged_data.groupby(['country', 'date']).agg({... 'sum'}).reset_index()`:
one row per distinct `(country, date)` key (sorted ascending, as `groupby`
sorts its keys), summing the five numeric columns over the group. -/
def country_data (l : List MergedRecord) : List CountryAggregate :=
  (List.insertionSort keyLeCD ((l.map fun m => (m.country, m.date)).dedup)).map fun k =>
    let g := countryGroup l k
    ⟨k.1, k.2, sumOf g (·.total_cases), sumOf g (·.total_deaths),
     sumOf g (·.total_recovered), sumOf g (·.new_cases), sumOf g (·.new_deaths)⟩

/-- The merged rows at one date. -/
def dateGroup (l : List MergedRecord) (d : ℕ) : List MergedRecord :=
  l.filter fun m => m.date = d

/-- `merged_data.groupby('date').agg({... 'sum'}).reset_index()`. -/
def global_data (l : List MergedRecord) : List GlobalAggregate :=
  (List.insertionSort (fun a b : ℕ => a ≤ b) ((l.map (·.date)).dedup)).map fun d =>
    let g := dateGroup l d
    ⟨d, sumOf g (·.total_cases), sumOf g (·.total_deaths),
     sumOf g (·.total_recovered), sumOf g (·.new_cases), sumOf g (·.new_deaths)⟩

/-- The `processed_data` dictionary returned by `load_covid_data`. -/
structure DatasetBundle where
  raw : List MergedRecord
  by_country : List CountryAggregate
  global : List GlobalAggregate
  countries : List String
deriving DecidableEq

/-- `src/data_loader.py::load_covid_data`, from the reshaped long tables
on (fetching and reshaping are modelled separately): left-join deaths onto
confirmed, add recovered (or a zero column when the recovered source is
unavailable), `fillna`, sort, compute clipped daily deltas, aggregate to
country and global level, and collect the sorted country list.  The source
raises nothing past this point: it always returns the dictionary. -/
def load_covid_data (confirmed deaths : List LongRecord)
    (recovered : Option (List LongRecord)) : DatasetBundle :=
  let merged := computeDeltas (sortRows (fillna
    (merge_recovered (merge_deaths confirmed deaths) recovered))) []
  { raw := merged,
    by_country := country_data merged,
    global := global_data merged,
    countries := List.insertionSort (fun a b : String => a ≤ b) ((merged.map (·.country)).dedup) }

/-- The guard of `src/app.py` (lines 46–50): after `load_data()` the app
halts (`st.stop()`) exactly when the bundle's global table is empty. -/
def app_halts (b : DatasetBundle) : Bool :=
  b.global.isEmpty

/-! ## Concrete example inputs -/

/-- The spec's example scenario: one subregion `"Alpha"` of country
`"Nation1"`, cumulative confirmed cases `[10, 10, 15, 12]` over four
consecutive dates. -/
def alphaConfirmed : List LongRecord :=
  [⟨some "Alpha", "Nation1", 0, 0, 0, some 10⟩,
   ⟨some "Alpha", "Nation1", 0, 0, 1, some 10⟩,
   ⟨some "Alpha", "Nation1", 0, 0, 2, some 15⟩,
   ⟨some "Alpha", "Nation1", 0, 0, 3, some 12⟩]

/-- A `get_top_countries` input with metric sums `B = 100`, `A = 100`,
`C = 50` at the single date `0`, encountered in the order `B, A, C`. -/
def rowsABC : List CountryRow :=
  [⟨"B", 0, 100⟩, ⟨"A", 0, 100⟩, ⟨"C", 0, 50⟩]

/-- A header parser recognising exactly the one date header `"1/22/20"`
(standing for an arbitrary fixed source date format). -/
def sampleParse : String → Option ℕ :=
  fun s => if s = "1/22/20" then some 0 else none

/-- A wide table with the identity columns, one data row, and two value
columns: one parseable date header and one unparsable header. -/
def mixedHeaderTable : WideTable :=
  ⟨true, ["1/22/20", "bad"], [⟨some "Alpha", "Nation1", 0, 0, [some 1, some 2]⟩]⟩

/-- A wide table with the identity columns, one data row, and a single
parseable date column. -/
def goodHeaderTable : WideTable :=
  ⟨true, ["1/22/20"], [⟨some "Alpha", "Nation1", 0, 0, [some 1]⟩]⟩

/-! ## Helper lemmas -/

theorem ilocNeg_bounds {l : List ℚ} {k : ℕ} {v : ℚ} (h : ilocNeg l k = some v) :
    1 ≤ k ∧ k ≤ l.length := by
  unfold ilocNeg at h
  split at h
  · assumption
  · exact absurd h (by simp)

theorem ilocNeg_total {l : List ℚ} {k : ℕ} (h1 : 1 ≤ k) (h2 : k ≤ l.length) :
    ∃ v, ilocNeg l k = some v := by
  have hlt : l.length - k < l.length := by omega
  exact ⟨l.get ⟨l.length - k, hlt⟩, by
    unfold ilocNeg
    rw [if_pos ⟨h1, h2⟩, List.get?_eq_get hlt]⟩

/-! ## Claims about `src/utils.py` and the case-fatality rate -/

/-- C5, counterexample.  The claim says `calculate_growth_rate` returns
exactly `0` — not a null/absent result — when the reference value is `0`
(series `[0, 1]`, period `1`) and when there is insufficient history
(series `[5]`, period `2`).  The source instead executes `return None` in
both situations, so the result is `Except.ok none`, not
`Except.ok (some 0)`. -/
theorem growth_rate_returns_none_not_zero :
    calculate_growth_rate [0, 1] 1 = Except.ok none ∧
      calculate_growth_rate [5] 2 = Except.ok none ∧
      (Except.ok none : Except UtilError (Option ℚ)) ≠ Except.ok (some 0) :=
  ⟨rfl, rfl, by simp⟩

/-- C5, amended.  `calculate_growth_rate` returns `None` (an absent
result, not `0` and not an error) when the series is shorter than the
requested period or when the reference value `days` ago is `0`; a
numeric growth rate is only ever produced from a non-zero reference
value, so no division error can occur. -/
theorem growth_rate_none_policy (data : List ℚ) (days : ℕ) :
    (data.length < days → calculate_growth_rate data days = Except.ok none) ∧
    (¬ data.length < days → ilocNeg data (days + 1) = some 0 →
      calculate_growth_rate data days = Except.ok none) ∧
    (∀ g, calculate_growth_rate data days = Except.ok (some g) →
      ∃ current previous, ilocNeg data 1 = some current ∧
        ilocNeg data (days + 1) = some previous ∧ previous ≠ 0 ∧
        g = (current - previous) / previous * 100) := by
  refine ⟨fun h => by simp [calculate_growth_rate, h], fun h h0 => ?_, fun g hg => ?_⟩
  · have hb := ilocNeg_bounds h0
    obtain ⟨c, hc⟩ := ilocNeg_total (l := data) (k := 1) le_rfl (by omega)
    simp [calculate_growth_rate, h, hc, h0]
  · by_cases hlt : data.length < days
    · simp [calculate_growth_rate, hlt] at hg
    · cases hc : ilocNeg data 1 with
      | none => simp [calculate_growth_rate, hlt, hc] at hg
      | some c =>
        cases hp : ilocNeg data (days + 1) with
        | none => simp [calculate_growth_rate, hlt, hc, hp] at hg
        | some p =>
          by_cases hp0 : p = 0
          · simp [calculate_growth_rate, hlt, hc, hp, hp0] at hg
          · simp [calculate_growth_rate, hlt, hc, hp, hp0] at hg
            exact ⟨c, p, rfl, rfl, hp0, hg.symm⟩

/-- C5, witness for `growth_rate_none_policy`. -/
theorem growth_rate_none_policy_witness :
    calculate_growth_rate [5] 2 = Except.ok none ∧
      calculate_growth_rate [0, 1] 1 = Except.ok none :=
  ⟨(growth_rate_none_policy [5] 2).1 (by norm_num),
   (growth_rate_none_policy [0, 1] 1).2.1 (by norm_num) rfl⟩

/-- C10.  In `calculate_growth_rate`, the insufficient-history guard uses
a strict comparison `len(data) < days`, so a series of length exactly
`days` passes the guard and the read `data[column].iloc[-days-1]` is then
out of bounds and raises `IndexError`; with length at least `days + 1`
both reads are in bounds and no exception is raised. -/
theorem growth_rate_exact_length_index_error (data : List ℚ) (days : ℕ) :
    (data.length = days →
      calculate_growth_rate data days = Except.error UtilError.indexError) ∧
    (days + 1 ≤ data.length →
      ∀ e, calculate_growth_rate data days ≠ Except.error e) := by
  constructor
  · intro h
    have hnone : ilocNeg data (days + 1) = none := by
      unfold ilocNeg
      rw [if_neg (by omega)]
    cases hc : ilocNeg data 1 <;>
      simp [calculate_growth_rate, h, hc, hnone]
  · intro h e
    obtain ⟨c, hc⟩ := ilocNeg_total (l := data) (k := 1) le_rfl (by omega)
    obtain ⟨p, hp⟩ := ilocNeg_total (l := data) (k := days + 1) (by omega) h
    have hne : ¬ data.length < days := by omega
    by_cases hp0 : p = 0
    · simp [calculate_growth_rate, hne, hc, hp, hp0]
    · simp [calculate_growth_rate, hne, hc, hp, hp0]

/-- C10, witness for `growth_rate_exact_length_index_error`. -/
theorem growth_rate_exact_length_index_error_witness :
    calculate_growth_rate [1, 2] 2 = Except.error UtilError.indexError ∧
      calculate_growth_rate [1, 2, 3] 2 ≠ Except.error UtilError.indexError :=
  ⟨(growth_rate_exact_length_index_error [1, 2] 2).1 rfl,
   (growth_rate_exact_length_index_error [1, 2, 3] 2).2 (by norm_num) UtilError.indexError⟩

/-- C6, counterexample.  The claim says the case-fatality rate is defined
as `0` when `totalCases = 0`; the source computes
`total_deaths / total_cases * 100` with no guard, and the float division
by zero produces a non-finite value (`NaN`/`inf`, modelled `none`), not
`0`. -/
theorem cfr_zero_cases_not_zero :
    case_fatality_rate 5 0 = none ∧ case_fatality_rate 0 0 = none ∧
      (none : Option ℚ) ≠ some 0 :=
  ⟨rfl, rfl, by simp⟩

/-- C6, amended.  `case_fatality_rate` computes
`round(totalDeaths / totalCases * 100, 2)` when `totalCases ≠ 0`, and with
`totalCases = 0` the unguarded float division yields a non-finite value
(modelled `none`) rather than `0`; no exception is raised either way. -/
theorem cfr_division_behavior (totalDeaths totalCases : ℚ) :
    (totalCases = 0 → case_fatality_rate totalDeaths totalCases = none) ∧
    (totalCases ≠ 0 →
      case_fatality_rate totalDeaths totalCases =
        some (round2 (totalDeaths / totalCases * 100))) := by
  constructor <;> intro h <;> simp [case_fatality_rate, h]

/-- C6, witness for `cfr_division_behavior`. -/
theorem cfr_division_behavior_witness :
    case_fatality_rate 5 0 = none ∧ case_fatality_rate 5 2 = some 250 :=
  ⟨(cfr_division_behavior 5 0).1 rfl,
   ((cfr_division_behavior 5 2).2 (by norm_num)).trans (by norm_num [round2])⟩

/-- C7, counterexample.  The claim says window positions with fewer than
`window` preceding points hold the average of all available points; with
series `[2, 4]` and window `2` that predicts `[2, 3]`, but the source's
`rolling(window).mean()` keeps its default `min_periods = window`, so the
first position is `NaN` (modelled `none`): the result is
`[none, some 3]`. -/
theorem rolling_average_leading_nan :
    calculate_rolling_average [2, 4] 2 = [none, some 3] ∧
      ([none, some 3] : List (Option ℚ)) ≠ [some 2, some 3] := by
  constructor
  · norm_num [calculate_rolling_average, List.range_succ]
  · simp

/-- C7, amended.  For any window `≥ 1`, `calculate_rolling_average` never
fails and its output has exactly the input's length, but positions with
fewer than `window` available points are `NaN` (modelled `none`) rather
than partial-window averages; positions with a full window hold the mean
of the last `window` values. -/
theorem rolling_average_shape (xs : List ℚ) (window : ℕ) (hw : 1 ≤ window) :
    (calculate_rolling_average xs window).length = xs.length ∧
    (∀ i, i + 1 < window → i < xs.length →
      (calculate_rolling_average xs window)[i]? = some none) ∧
    (∀ i, window ≤ i + 1 → i < xs.length →
      (calculate_rolling_average xs window)[i]? =
        some (some (((xs.take (i + 1)).drop (i + 1 - window)).sum / (window : ℚ)))) := by
  refine ⟨by simp [calculate_rolling_average], fun i hi hilen => ?_, fun i hi hilen => ?_⟩
  · simp [calculate_rolling_average, List.getElem?_map, List.getElem?_range hilen, hi]
  · simp [calculate_rolling_average, List.getElem?_map, List.getElem?_range hilen,
      (by omega : ¬ i + 1 < window), hi]

/-- C7, witness for `rolling_average_shape`. -/
theorem rolling_average_shape_witness :
    (calculate_rolling_average [2, 4] 2).length = 2 ∧
      (calculate_rolling_average [2, 4] 2)[0]? = some none ∧
      (calculate_rolling_average [2, 4] 2)[1]? = some (some 3) :=
  ⟨(rolling_average_shape [2, 4] 2 (by norm_num)).1,
   (rolling_average_shape [2, 4] 2 (by norm_num)).2.1 0 (by norm_num) (by norm_num),
   ((rolling_average_shape [2, 4] 2 (by norm_num)).2.2 1 (by norm_num) (by norm_num)).trans
     (by norm_num)⟩

/-! ## Claims about `process_time_series` (reshape) -/

theorem parseAll_length (parse : String → Option ℕ) (hs : List String) :
    ∀ ds, parseAll parse hs = some ds → ds.length = hs.length := by
  induction hs with
  | nil =>
    intro ds h
    simp only [parseAll, Option.some.injEq] at h
    simp [← h]
  | cons a t ih =>
    intro ds h
    cases hp : parse a <;> cases hr : parseAll parse t <;>
        simp only [parseAll, hp, hr, Option.some.injEq] at h
    · exact Option.noConfusion h
    · exact Option.noConfusion h
    · exact Option.noConfusion h
    · subst h
      simp [ih _ hr]

theorem meltAll_length (rows : List WideRow) :
    ∀ ps : List (ℕ × ℕ), (meltAll rows ps).length = ps.length * rows.length
  | [] => by simp [meltAll]
  | (k, d) :: rest => by
    simp [meltAll, meltColumn, meltAll_length rows rest]
    ring

/-- C4, counterexample.  The claim says headers that cannot be parsed as
dates are dropped without failing, so this table — identity columns
present, one row, one parseable header and one unparsable header `"bad"` —
should reshape to `1 × 1 = 1` long record.  The source instead converts
the whole melted date column with `pd.to_datetime` (default
`errors='raise'`), so the single bad header makes the call raise. -/
theorem reshape_unparsable_header_fatal :
    process_time_series sampleParse mixedHeaderTable =
      Except.error ReshapeError.unparsableDate := rfl

/-- C4, amended.  For every wide table with the identity columns: when all
date headers parse, `process_time_series` emits one long record per
(input row, date column) — output count = rows × columns; when any header
is unparsable the whole call fails (not only when all are). -/
theorem reshape_row_count (parse : String → Option ℕ) (t : WideTable)
    (hid : t.hasIdColumns = true) :
    (∀ dates, parseAll parse t.headers = some dates →
      process_time_series parse t = Except.ok (meltAll t.rows dates.enum) ∧
      (meltAll t.rows dates.enum).length = t.rows.length * t.headers.length) ∧
    (parseAll parse t.headers = none →
      process_time_series parse t = Except.error ReshapeError.unparsableDate) := by
  constructor
  · intro dates hd
    refine ⟨by simp [process_time_series, hid, hd], ?_⟩
    rw [meltAll_length, List.enum_length, parseAll_length parse t.headers dates hd,
      Nat.mul_comm]
  · intro hd
    simp [process_time_series, hid, hd]

/-- C4, witness for `reshape_row_count`. -/
theorem reshape_row_count_witness :
    process_time_series sampleParse goodHeaderTable =
      Except.ok (meltAll goodHeaderTable.rows ([0] : List ℕ).enum) ∧
      (meltAll goodHeaderTable.rows ([0] : List ℕ).enum).length =
        goodHeaderTable.rows.length * goodHeaderTable.headers.length :=
  (reshape_row_count sampleParse goodHeaderTable rfl).1 [0] rfl

/-! ## Claims about `get_top_countries` -/

/-- C8, counterexample.  With the rows of `rowsABC` — countries
encountered in the order `B, A, C` with sums `B = 100`, `A = 100`,
`C = 50` — the claim's tie-break "by original input order" predicts
`["B", "A"]` for `n = 2`.  The source's `groupby` sorts the group keys
alphabetically and `nlargest(keep='first')` keeps that order among ties,
so it returns `["A", "B"]`. -/
theorem top_countries_tie_alphabetical :
    get_top_countries rowsABC 2 none = ["A", "B"] ∧
      (["A", "B"] : List String) ≠ ["B", "A"] := by
  constructor
  · norm_num +decide [get_top_countries, resolvedDate, latestDate, rowsABC, countriesAt,
      metricSum, List.insertionSort, List.orderedInsert, rankRel, List.dedup, List.filter]
  · simp

/-- C8, amended.  `get_top_countries` groups the rows at the requested
date (defaulting to the latest date present) by country, sums the metric,
and returns at most `n` countries: the returned names are countries
present at that date, they are ordered by descending metric sum with ties
in ascending (alphabetical) country-name order — not original input
order — and any country left out is ranked at or below everything
returned. -/
theorem top_countries_ranking (rows : List CountryRow) (n : ℕ) (date : Option ℕ) :
    (get_top_countries rows n date).length =
      min n (countriesAt rows (resolvedDate rows date)).length ∧
    (∀ c ∈ get_top_countries rows n date, c ∈ countriesAt rows (resolvedDate rows date)) ∧
    (get_top_countries rows n date).Pairwise (fun a b =>
      metricSum rows (resolvedDate rows date) b < metricSum rows (resolvedDate rows date) a ∨
      (metricSum rows (resolvedDate rows date) a = metricSum rows (resolvedDate rows date) b ∧
        a ≤ b)) ∧
    (∀ c ∈ countriesAt rows (resolvedDate rows date), c ∉ get_top_countries rows n date →
      ∀ c' ∈ get_top_countries rows n date,
        metricSum rows (resolvedDate rows date) c < metricSum rows (resolvedDate rows date) c' ∨
        (metricSum rows (resolvedDate rows date) c' = metricSum rows (resolvedDate rows date) c ∧
          c' ≤ c)) := by
  set d := resolvedDate rows date with hd
  set names := List.insertionSort (fun a b : String => a ≤ b) (countriesAt rows d)
    with hnames
  set sums := names.map (fun c => (c, metricSum rows d c)) with hsums
  set ranked := List.insertionSort rankRel sums with hranked
  have hres : get_top_countries rows n date = (ranked.take n).map Prod.fst := rfl
  have hmem : ∀ p ∈ ranked, p.2 = metricSum rows d p.1 ∧ p.1 ∈ countriesAt rows d := by
    intro p hp
    have hp' : p ∈ sums := (List.mem_insertionSort rankRel).mp hp
    obtain ⟨c, hc, rfl⟩ := List.mem_map.mp hp'
    exact ⟨rfl, (List.mem_insertionSort _).mp hc⟩
  have hsorted : List.Pairwise rankRel ranked := List.sorted_insertionSort rankRel sums
  rw [hres]
  refine ⟨?_, ?_, ?_, ?_⟩
  · rw [List.length_map, List.length_take, List.length_insertionSort, List.length_map,
      List.length_insertionSort]
  · intro c hc
    obtain ⟨p, hp, rfl⟩ := List.mem_map.mp hc
    exact (hmem p (List.mem_of_mem_take hp)).2
  · refine List.pairwise_map.mpr ?_
    refine List.Pairwise.imp_of_mem ?_ (hsorted.sublist (List.take_sublist n ranked))
    intro p q hp hq hr
    have hp2 := (hmem p (List.mem_of_mem_take hp)).1
    have hq2 := (hmem q (List.mem_of_mem_take hq)).1
    rcases hr with h | ⟨h1, h2⟩
    · exact Or.inl (by rw [← hp2, ← hq2]; exact h)
    · exact Or.inr ⟨by rw [← hp2, ← hq2]; exact h1, h2⟩
  · intro c hcAt hcNot c' hc'
    have hcp : (c, metricSum rows d c) ∈ ranked :=
      (List.mem_insertionSort rankRel).mpr
        (List.mem_map_of_mem _ ((List.mem_insertionSort _).mpr hcAt))
    have hsplit : ranked = ranked.take n ++ ranked.drop n :=
      (List.take_append_drop n ranked).symm
    have hpw := hsorted
    rw [hsplit] at hpw
    have hcross := (List.pairwise_append.mp hpw).2.2
    obtain ⟨p', hp'take, rfl⟩ := List.mem_map.mp hc'
    have hcdrop : (c, metricSum rows d c) ∈ ranked.drop n := by
      rcases List.mem_append.mp (hsplit ▸ hcp) with h | h
      · exact absurd (List.mem_map_of_mem Prod.fst h) hcNot
      · exact h
    have hr := hcross p' hp'take _ hcdrop
    have hp2 := (hmem p' (List.mem_of_mem_take hp'take)).1
    rcases hr with h | ⟨h1, h2⟩
    · exact Or.inl (by rw [← hp2]; exact h)
    · exact Or.inr ⟨by rw [← hp2, h1], h2⟩

/-- C8, witness for `top_countries_ranking`. -/
theorem top_countries_ranking_witness :
    "A" ∈ countriesAt rowsABC (resolvedDate rowsABC none) ∧
      (metricSum rowsABC (resolvedDate rowsABC none) "C" <
          metricSum rowsABC (resolvedDate rowsABC none) "A" ∨
        (metricSum rowsABC (resolvedDate rowsABC none) "A" =
            metricSum rowsABC (resolvedDate rowsABC none) "C" ∧ ("A" : String) ≤ "C")) := by
  have h := top_countries_ranking rowsABC 2 none
  refine ⟨h.2.1 "A" ?hAin, h.2.2.2 "C" ?hCat ?hCout "A" ?hAin2⟩
  case hAin =>
    norm_num +decide [get_top_countries, resolvedDate, latestDate, rowsABC, countriesAt,
      metricSum, List.insertionSort, List.orderedInsert, rankRel, List.dedup, List.filter]
  case hCat => decide
  case hCout =>
    norm_num +decide [get_top_countries, resolvedDate, latestDate, rowsABC, countriesAt,
      metricSum, List.insertionSort, List.orderedInsert, rankRel, List.dedup, List.filter]
  case hAin2 =>
    norm_num +decide [get_top_countries, resolvedDate, latestDate, rowsABC, countriesAt,
      metricSum, List.insertionSort, List.orderedInsert, rankRel, List.dedup, List.filter]

/-! ## Claims about `load_covid_data` (merge / deltas / aggregation) -/

theorem computeDeltas_nonneg :
    ∀ (l : List PreMerged) (seen : List (SeriesKey × ℚ × ℚ)),
      ∀ m ∈ computeDeltas l seen, 0 ≤ m.new_cases ∧ 0 ≤ m.new_deaths
  | [], _, m, hm => by simp [computeDeltas] at hm
  | p :: ps, seen, m, hm => by
    simp only [computeDeltas, List.mem_cons] at hm
    rcases hm with rfl | hm
    · exact ⟨le_max_left 0 _, le_max_left 0 _⟩
    · exact computeDeltas_nonneg ps _ m hm

theorem computeDeltas_first_obs :
    ∀ (l : List PreMerged) (seen : List (SeriesKey × ℚ × ℚ)) (pre : List MergedRecord)
      (m : MergedRecord) (post : List MergedRecord),
      computeDeltas l seen = pre ++ m :: post →
      lookupKV seen (skey m) = none →
      (∀ m' ∈ pre, skey m' ≠ skey m) →
      m.new_cases = 0 ∧ m.new_deaths = 0
  | [], seen, pre, m, post, heq, _, _ => by
    rw [computeDeltas] at heq
    exact absurd heq.symm (by simp)
  | p :: ps, seen, pre, m, post, heq, hseen, hpre => by
    rw [computeDeltas] at heq
    cases pre with
    | nil =>
      simp only [List.nil_append] at heq
      injection heq with h1 h2
      subst h1
      have hs' : lookupKV seen (pkey p) = none := hseen
      constructor <;> simp [mkMerged, hs']
    | cons q pre' =>
      simp only [List.cons_append] at heq
      injection heq with h1 h2
      subst h1
      have hq : pkey p ≠ skey m := hpre _ (List.mem_cons_self _ _)
      have hstep : lookupKV ((pkey p, p.total_cases, p.total_deaths) :: seen) (skey m) = none := by
        rw [lookupKV, if_neg (Ne.symm hq)]
        exact hseen
      exact computeDeltas_first_obs ps _ pre' m post h2 hstep
        (fun m' hm' => hpre m' (List.mem_cons_of_mem _ hm'))

/-- C1.  Every merged record the pipeline produces has
`new_cases ≥ 0` and `new_deaths ≥ 0` (`.clip(lower=0)` runs on every
row, whatever the cumulative inputs do), and any record that no earlier
output row shares a `(country, province)` series key with — the first
observation of its series — has `new_cases = 0` and `new_deaths = 0`
(its `diff()` is `NaN`, so `fillna(0)` makes it `0`). -/
theorem clip_invariant_first_obs (confirmed deaths : List LongRecord)
    (recovered : Option (List LongRecord)) :
    (∀ m ∈ (load_covid_data confirmed deaths recovered).raw,
      0 ≤ m.new_cases ∧ 0 ≤ m.new_deaths) ∧
    (∀ pre m post,
      (load_covid_data confirmed deaths recovered).raw = pre ++ m :: post →
      (∀ m' ∈ pre, skey m' ≠ skey m) →
      m.new_cases = 0 ∧ m.new_deaths = 0) := by
  constructor
  · intro m hm
    exact computeDeltas_nonneg _ _ m hm
  · intro pre m post heq hpre
    exact computeDeltas_first_obs _ [] pre m post heq rfl hpre

/-- C1, witness for `clip_invariant_first_obs`. -/
theorem clip_invariant_first_obs_witness :
    (0 ≤ (⟨"Alpha", "Nation1", 0, 0, 2, 15, 0, 0, 5, 0⟩ : MergedRecord).new_cases ∧
      0 ≤ (⟨"Alpha", "Nation1", 0, 0, 2, 15, 0, 0, 5, 0⟩ : MergedRecord).new_deaths) ∧
    ((⟨"Alpha", "Nation1", 0, 0, 0, 10, 0, 0, 0, 0⟩ : MergedRecord).new_cases = 0 ∧
      (⟨"Alpha", "Nation1", 0, 0, 0, 10, 0, 0, 0, 0⟩ : MergedRecord).new_deaths = 0) := by
  have h := clip_invariant_first_obs alphaConfirmed [] none
  refine ⟨h.1 ⟨"Alpha", "Nation1", 0, 0, 2, 15, 0, 0, 5, 0⟩ ?_,
    h.2 [] ⟨"Alpha", "Nation1", 0, 0, 0, 10, 0, 0, 0, 0⟩
      [⟨"Alpha", "Nation1", 0, 0, 1, 10, 0, 0, 0, 0⟩,
       ⟨"Alpha", "Nation1", 0, 0, 2, 15, 0, 0, 5, 0⟩,
       ⟨"Alpha", "Nation1", 0, 0, 3, 12, 0, 0, 0, 0⟩] ?_ (by simp)⟩
  · norm_num +decide [load_covid_data, alphaConfirmed, merge_deaths, merge_recovered,
      joinMatches, fillna, sortRows, List.insertionSort, List.orderedInsert, rowLe,
      computeDeltas, mkMerged, lookupKV, pkey, List.filter]
  · norm_num +decide [load_covid_data, alphaConfirmed, merge_deaths, merge_recovered,
      joinMatches, fillna, sortRows, List.insertionSort, List.orderedInsert, rowLe,
      computeDeltas, mkMerged, lookupKV, pkey, List.filter]

/-- C2.  On the example scenario — one subregion `"Alpha"` of `"Nation1"`
with cumulative confirmed cases `[10, 10, 15, 12]` over four consecutive
dates, an empty deaths table and no recovered source — the pipeline
produces four merged rows with `total_deaths = 0` and
`total_recovered = 0` throughout, and `new_cases = [0, 0, 5, 0]`: the
drop from `15` to `12` is clipped to `0`, not `−3`. -/
theorem alpha_scenario :
    (load_covid_data alphaConfirmed [] none).raw.map (fun m => m.total_deaths) =
        [0, 0, 0, 0] ∧
      (load_covid_data alphaConfirmed [] none).raw.map (fun m => m.total_recovered) =
        [0, 0, 0, 0] ∧
      (load_covid_data alphaConfirmed [] none).raw.map (fun m => m.new_cases) =
        [0, 0, 5, 0] := by
  refine ⟨?_, ?_, ?_⟩ <;>
    norm_num +decide [load_covid_data, alphaConfirmed, merge_deaths, merge_recovered,
      joinMatches, fillna, sortRows, List.insertionSort, List.orderedInsert, rowLe,
      computeDeltas, mkMerged, lookupKV, pkey, List.filter]

theorem country_data_spec (l : List MergedRecord) :
    (∀ a ∈ country_data l,
      a.total_cases = sumOf (countryGroup l (a.country, a.date)) (fun m => m.total_cases) ∧
      a.total_deaths = sumOf (countryGroup l (a.country, a.date)) (fun m => m.total_deaths) ∧
      a.total_recovered =
        sumOf (countryGroup l (a.country, a.date)) (fun m => m.total_recovered) ∧
      a.new_cases = sumOf (countryGroup l (a.country, a.date)) (fun m => m.new_cases) ∧
      a.new_deaths = sumOf (countryGroup l (a.country, a.date)) (fun m => m.new_deaths)) ∧
    (∀ m ∈ l, ∃ a ∈ country_data l, a.country = m.country ∧ a.date = m.date) := by
  constructor
  · intro a ha
    obtain ⟨k, hk, rfl⟩ := List.mem_map.mp ha
    exact ⟨rfl, rfl, rfl, rfl, rfl⟩
  · intro m hm
    refine ⟨_, List.mem_map_of_mem _
      ((List.mem_insertionSort _).mpr (List.mem_dedup.mpr
        (List.mem_map_of_mem (fun m => (m.country, m.date)) hm))), rfl, rfl⟩

theorem global_data_spec (l : List MergedRecord) :
    (∀ g ∈ global_data l,
      g.total_cases = sumOf (dateGroup l g.date) (fun m => m.total_cases) ∧
      g.total_deaths = sumOf (dateGroup l g.date) (fun m => m.total_deaths) ∧
      g.total_recovered = sumOf (dateGroup l g.date) (fun m => m.total_recovered) ∧
      g.new_cases = sumOf (dateGroup l g.date) (fun m => m.new_cases) ∧
      g.new_deaths = sumOf (dateGroup l g.date) (fun m => m.new_deaths)) ∧
    (∀ m ∈ l, ∃ g ∈ global_data l, g.date = m.date) := by
  constructor
  · intro g hg
    obtain ⟨d, hd, rfl⟩ := List.mem_map.mp hg
    exact ⟨rfl, rfl, rfl, rfl, rfl⟩
  · intro m hm
    refine ⟨_, List.mem_map_of_mem _
      ((List.mem_insertionSort _).mpr (List.mem_dedup.mpr
        (List.mem_map_of_mem (fun m => m.date) hm))), rfl⟩

/-- C3.  Two-level aggregation consistency of the pipeline output: every
per-country aggregate row carries, in each of its five numeric fields,
exactly the sum of that field over the raw per-subregion rows of that
country at that date — and a country aggregate exists for every
`(country, date)` appearing in the raw rows; likewise every global
aggregate row carries the sums over all raw rows at its date, and exists
for every date appearing in the raw rows. -/
theorem aggregation_consistency (confirmed deaths : List LongRecord)
    (recovered : Option (List LongRecord)) :
    (∀ a ∈ (load_covid_data confirmed deaths recovered).by_country,
      a.total_cases =
        sumOf (countryGroup (load_covid_data confirmed deaths recovered).raw
          (a.country, a.date)) (fun m => m.total_cases) ∧
      a.total_deaths =
        sumOf (countryGroup (load_covid_data confirmed deaths recovered).raw
          (a.country, a.date)) (fun m => m.total_deaths) ∧
      a.total_recovered =
        sumOf (countryGroup (load_covid_data confirmed deaths recovered).raw
          (a.country, a.date)) (fun m => m.total_recovered) ∧
      a.new_cases =
        sumOf (countryGroup (load_covid_data confirmed deaths recovered).raw
          (a.country, a.date)) (fun m => m.new_cases) ∧
      a.new_deaths =
        sumOf (countryGroup (load_covid_data confirmed deaths recovered).raw
          (a.country, a.date)) (fun m => m.new_deaths)) ∧
    (∀ m ∈ (load_covid_data confirmed deaths recovered).raw,
      ∃ a ∈ (load_covid_data confirmed deaths recovered).by_country,
        a.country = m.country ∧ a.date = m.date) ∧
    (∀ g ∈ (load_covid_data confirmed deaths recovered).global,
      g.total_cases =
        sumOf (dateGroup (load_covid_data confirmed deaths recovered).raw g.date)
          (fun m => m.total_cases) ∧
      g.total_deaths =
        sumOf (dateGroup (load_covid_data confirmed deaths recovered).raw g.date)
          (fun m => m.total_deaths) ∧
      g.total_recovered =
        sumOf (dateGroup (load_covid_data confirmed deaths recovered).raw g.date)
          (fun m => m.total_recovered) ∧
      g.new_cases =
        sumOf (dateGroup (load_covid_data confirmed deaths recovered).raw g.date)
          (fun m => m.new_cases) ∧
      g.new_deaths =
        sumOf (dateGroup (load_covid_data confirmed deaths recovered).raw g.date)
          (fun m => m.new_deaths)) ∧
    (∀ m ∈ (load_covid_data confirmed deaths recovered).raw,
      ∃ g ∈ (load_covid_data confirmed deaths recovered).global, g.date = m.date) := by
  have hc := country_data_spec (load_covid_data confirmed deaths recovered).raw
  have hg := global_data_spec (load_covid_data confirmed deaths recovered).raw
  exact ⟨hc.1, hc.2, hg.1, hg.2⟩

/-- C3, witness for `aggregation_consistency`. -/
theorem aggregation_consistency_witness :
    (⟨"Nation1", 2, 15, 0, 0, 5, 0⟩ : CountryAggregate).total_cases =
      sumOf (countryGroup (load_covid_data alphaConfirmed [] none).raw ("Nation1", 2))
        (fun m => m.total_cases) ∧
    (⟨2, 15, 0, 0, 5, 0⟩ : GlobalAggregate).total_cases =
      sumOf (dateGroup (load_covid_data alphaConfirmed [] none).raw 2)
        (fun m => m.total_cases) := by
  have h := aggregation_consistency alphaConfirmed [] none
  refine ⟨(h.1 ⟨"Nation1", 2, 15, 0, 0, 5, 0⟩ ?_).1, (h.2.2.1 ⟨2, 15, 0, 0, 5, 0⟩ ?_).1⟩
  · norm_num +decide [load_covid_data, alphaConfirmed, merge_deaths, merge_recovered,
      joinMatches, fillna, sortRows, List.insertionSort, List.orderedInsert, rowLe,
      computeDeltas, mkMerged, lookupKV, pkey, List.filter, country_data, countryGroup,
      sumOf, keyLeCD, List.dedup]
  · norm_num +decide [load_covid_data, alphaConfirmed, merge_deaths, merge_recovered,
      joinMatches, fillna, sortRows, List.insertionSort, List.orderedInsert, rowLe,
      computeDeltas, mkMerged, lookupKV, pkey, List.filter, global_data, dateGroup,
      sumOf, List.dedup]

theorem joinMatches_ne_nil {α : Type} (noMatch : α) (withMatch : LongRecord → α)
    (ms : List LongRecord) : joinMatches noMatch withMatch ms ≠ [] := by
  cases ms <;> simp [joinMatches]

theorem merge_deaths_eq_nil (confirmed deaths : List LongRecord) :
    merge_deaths confirmed deaths = [] ↔ confirmed = [] := by
  cases confirmed with
  | nil => simp [merge_deaths]
  | cons c cs =>
    simp [merge_deaths, List.flatMap_cons, List.append_eq_nil, joinMatches_ne_nil]

theorem merge_recovered_eq_nil (joined : List JoinedRecord)
    (recovered : Option (List LongRecord)) :
    merge_recovered joined recovered = [] ↔ joined = [] := by
  cases recovered with
  | none => simp [merge_recovered]
  | some recs =>
    cases joined with
    | nil => simp [merge_recovered]
    | cons j js =>
      simp [merge_recovered, List.flatMap_cons, List.append_eq_nil, joinMatches_ne_nil]

theorem fillna_eq_nil (l : List JoinedRecord) : fillna l = [] ↔ l = [] := by
  simp [fillna]

theorem sortRows_eq_nil (l : List PreMerged) : sortRows l = [] ↔ l = [] := by
  unfold sortRows
  constructor
  · intro h
    have hlen := List.length_insertionSort rowLe l
    rw [h] at hlen
    exact List.length_eq_zero.mp hlen.symm
  · rintro rfl
    rfl

theorem computeDeltas_eq_nil (l : List PreMerged) (seen : List (SeriesKey × ℚ × ℚ)) :
    computeDeltas l seen = [] ↔ l = [] := by
  cases l <;> simp [computeDeltas]

theorem global_data_eq_nil (l : List MergedRecord) : global_data l = [] ↔ l = [] := by
  constructor
  · intro h
    cases l with
    | nil => rfl
    | cons m ms =>
      exfalso
      have hmem : m.date ∈ List.insertionSort (fun a b : ℕ => a ≤ b)
          (((m :: ms).map (·.date)).dedup) :=
        (List.mem_insertionSort _).mpr (List.mem_dedup.mpr (by simp))
      rw [global_data, List.map_eq_nil_iff] at h
      rw [h] at hmem
      exact List.not_mem_nil _ hmem
  · rintro rfl
    rfl

/-- C9, counterexample.  `load_covid_data` contains no emptiness check
and no `EmptyDatasetError` (no such failure path exists in
`src/data_loader.py`): with empty inputs, the merge and both aggregations
are empty and the pipeline still returns the bundle — with empty raw,
country, global and countries tables — instead of failing. -/
theorem empty_input_returns_empty_bundle :
    load_covid_data [] [] none = ⟨[], [], [], []⟩ := rfl

/-- C9, amended.  The pipeline never fails on empty data: its global
aggregate is empty exactly when the confirmed input is empty, and it is
the app layer (the guard after `load_data()` in `src/app.py`) that halts,
with a UI error rather than an `EmptyDatasetError`, exactly when the
returned bundle's global table is empty. -/
theorem empty_dataset_app_guard (confirmed deaths : List LongRecord)
    (recovered : Option (List LongRecord)) :
    ((load_covid_data confirmed deaths recovered).global = [] ↔ confirmed = []) ∧
    (app_halts (load_covid_data confirmed deaths recovered) = true ↔
      (load_covid_data confirmed deaths recovered).global = []) := by
  constructor
  · rw [show (load_covid_data confirmed deaths recovered).global =
        global_data (computeDeltas (sortRows (fillna
          (merge_recovered (merge_deaths confirmed deaths) recovered))) []) from rfl]
    rw [global_data_eq_nil, computeDeltas_eq_nil, sortRows_eq_nil, fillna_eq_nil,
      merge_recovered_eq_nil, merge_deaths_eq_nil]
  · simp [app_halts, List.isEmpty_iff]

end CovViz
